import Mathlib

/-!
Verification of the `ai_simple_personal_trainer` pipeline
(`src/ai_simple_personal_trainer.py`) against its natural-language
specification.

The embedding has three granularities, each matching the part of the code a
claim is about:

* transport level (`TransportResult`, `analyze_image_internal`,
  `send_prompt`, `send_prompt_gpt_oss`): the raw HTTP wrappers around the
  Ollama endpoint; the external agent's answer is a `TransportResult`
  (connection failure, or a status code plus extracted response text);
* attempt level (`ratingLoopAux`, `analyze_image_rating_internal`): the
  validity-retry loop of `analyze_image_rating_internal`; the external
  agent is an oracle `Nat → String` giving the text returned by the n-th
  attempt of the identical request;
* call level (`Op`, `analyze_image_rating`, `runCategory`, `analyzeOverall`,
  `overallRun`): the composition of the pipeline; the external agent is an
  environment `Nat → String` giving the text returned by the n-th
  opinion-source call of the run, and each modelled function additionally
  records the trace of calls (`List Op`) it issues.

Python strings are `String`, Python lists/sets of exercise names are
`List String` in insertion order (a Python `set` never holds duplicates,
which `setAdd` preserves; iteration order of small `str` sets is not
relied on by any claim).
-/

/-- Python's case-sensitive substring test `pat in s`. -/
def hasSubstr (s pat : String) : Bool :=
  decide (pat.data <:+: s.data)

/-- Python's `bool(_digits.search(s))` for `_digits = re.compile('\\d')`:
the response contains at least one decimal digit character. -/
def hasDigit (s : String) : Bool :=
  s.data.any Char.isDigit

/-- Outcome of one `requests.post` to the Ollama endpoint: the connection
may fail with an exception, or an HTTP response arrives carrying a status
code and the extracted `result['response']` text. -/
inductive TransportResult where
  | unreachable : TransportResult
  | response : Nat → String → TransportResult

/-- Model of `analyze_image_internal` (lines 62-87): sends image plus prompt; an
exception from `requests.post` is not caught (modelled as `Except.error`);
a 200 status returns the response text; any other status returns the
placeholder string `"Error: <status>"` as a normal value. -/
def analyze_image_internal (r : TransportResult) : Except Unit String :=
  match r with
  | .unreachable => .error ()
  | .response status body =>
      if status = 200 then .ok body else .ok ("Error: " ++ Nat.repr status)

/-- Model of `send_prompt` (lines 94-115): text-only variant of the same wrapper,
with identical status handling. -/
def send_prompt (r : TransportResult) : Except Unit String :=
  match r with
  | .unreachable => .error ()
  | .response status body =>
      if status = 200 then .ok body else .ok ("Error: " ++ Nat.repr status)

/-- Model of `send_prompt_gpt_oss` (lines 122-143): the large-model variant, again
with identical status handling. -/
def send_prompt_gpt_oss (r : TransportResult) : Except Unit String :=
  match r with
  | .unreachable => .error ()
  | .response status body =>
      if status = 200 then .ok body else .ok ("Error: " ++ Nat.repr status)

/-- The validity test of `analyze_image_rating_internal` (lines 165-166):
`found` is true (the response is INVALID) when the text contains one of the
three refusal phrases or contains no decimal digit. -/
def invalidRating (desc : String) : Bool :=
  (hasSubstr desc "inappropriate" || hasSubstr desc "not appropriate" ||
    hasSubstr desc "not to judge") || !(hasDigit desc)

/-- The `while( found and ( count < 15 ) )` loop of
`analyze_image_rating_internal` (lines 167-171), written with the
remaining iteration budget `fuel` as structural fuel; the loop state keeps
the invariant `fuel + count = 15`, so `fuel = 0` is exactly the exit
condition `count = 15`.  `oracle n` is the response text of attempt `n`;
the loop re-requests attempt `count + 1` while the current text is invalid. -/
def ratingLoopAux (oracle : Nat → String) : Nat → String → Nat → String × Nat
  | 0, desc, count => (desc, count)
  | fuel + 1, desc, count =>
      if invalidRating desc = true then
        ratingLoopAux oracle fuel (oracle (count + 1)) (count + 1)
      else
        (desc, count)

/-- Model of `analyze_image_rating_internal` (lines 161-172) over the attempt oracle:
the text finally returned by the retry loop. -/
def analyze_image_rating_internal (oracle : Nat → String) : String :=
  (ratingLoopAux oracle 15 (oracle 0) 0).1

/-- Total number of `analyze_image_internal` calls the retry loop issues:
the final loop counter plus the initial attempt. -/
def ratingAttempts (oracle : Nat → String) : Nat :=
  (ratingLoopAux oracle 15 (oracle 0) 0).2 + 1

/-- One opinion-source interaction at call granularity: a validated rating
acquisition (`analyze_image_rating_internal`, carrying its image path and
prompt), a text-only llava call (`send_prompt`), or a text-only gpt-oss call
(`send_prompt_gpt_oss`). -/
inductive Op where
  | acquireRating : String → String → Op
  | sendPrompt : String → Op
  | sendPromptGptOss : String → Op
deriving DecidableEq, Repr

/-- Model of `PROMPT_ENGINEERING_RATING` (line 180). -/
def PROMPT_ENGINEERING_RATING : String :=
  "  Where there is insufficient information or the task is impossible, always make a best guess number from the information provided.  Please always produce a number."

/-- Model of `BACK_IMAGE` (line 212). -/
def BACK_IMAGE : String := "image_back.jpeg"

/-- Model of `FRONT_IMAGE` (line 217). -/
def FRONT_IMAGE : String := "image_front.jpeg"

/-- Model of `SIDE_IMAGE` (line 222). -/
def SIDE_IMAGE : String := "image_side.jpeg"

/-- Model of `analyze_image_rating` (lines 189-203) at call granularity: append the
best-guess suffix once, acquire three validated opinions with the identical
augmented prompt, fuse them with one text-only call labelled A/B/C, and
return the fused text.  `env n` is the text produced by the n-th
opinion-source call of the run and `k` the index of the next call; the
result is the returned text, the next free call index, and the calls made. -/
def analyze_image_rating (env : Nat → String) (k : Nat)
    (image_path inPrompt : String) : String × Nat × List Op :=
  let prompt := inPrompt ++ PROMPT_ENGINEERING_RATING
  let quality_A := env k
  let quality_B := env (k + 1)
  let quality_C := env (k + 2)
  let prompt2 := "integrate these descriptions to generate an overall number for the person.\n\nDescription A:\n\n" ++ quality_A ++ "\n\nDescription B:\n\n" ++ quality_B ++ "\n\nDescription C:\n\n" ++ quality_C
  let quality_overall := env (k + 3)
  (quality_overall, k + 4,
    [Op.acquireRating image_path prompt, Op.acquireRating image_path prompt,
      Op.acquireRating image_path prompt, Op.sendPrompt prompt2])

/-- One applicable photograph view of a category: image path, the label the
category fusion prompt uses for it, and the per-view rating prompt. -/
structure ViewSpec where
  image : String
  photoLabel : String
  prompt : String
deriving DecidableEq, Repr

/-- A Category Definition: transcript identifier, applicable views in
acquisition order, and the category-level fusion prompt prefix (`none` for
the two single-view categories, which copy the per-view fused text
directly). -/
structure CategoryDef where
  transcriptLabel : String
  views : List ViewSpec
  fusionBase : Option String
deriving DecidableEq, Repr

/-- Pipeline state threaded through the category evaluations: the global
`overPrompt` accumulator (line 229), the same transcript as a list of
(category identifier, fused text) entries, the next opinion-source call
index, and the trace of calls made so far. -/
structure TState where
  overPrompt : String
  entries : List (String × String)
  k : Nat
  trace : List Op
deriving Repr

/-- The pipeline state at the start of `overallRun`: `overPrompt` is the
empty string and no call has been made. -/
def initState : TState := ⟨"", [], 0, []⟩

/-- Acquire the fused rating of every view of a category in order, as each
category function does before building its fusion prompt.  Returns the
(photo label, fused text) pairs, the next call index, and the calls made. -/
def runViews (env : Nat → String) (k : Nat) :
    List ViewSpec → List (String × String) × Nat × List Op
  | [] => ([], k, [])
  | v :: rest =>
      let acq := analyze_image_rating env k v.image v.prompt
      let restRun := runViews env acq.2.1 rest
      ((v.photoLabel, acq.1) :: restRun.1, restRun.2.1, acq.2.2 ++ restRun.2.2)

/-- The category-level fusion prompt: the category prefix followed by each
view's text under its photo label, exactly as the `prompt2` concatenations
of the category functions build it. -/
def fusionPrompt (base : String) (pairs : List (String × String)) : String :=
  pairs.foldl (fun acc p => acc ++ "\n\n" ++ p.1 ++ ":\n\n" ++ p.2) base

/-- One category evaluation (the common shape of the 22 `analyze...`
category functions, lines 303-953): acquire every applicable view, then
either fuse the per-view texts with one further text-only call
(`fusionBase = some base`) or, for the single-view categories, take the
per-view fused text directly (`fusionBase = none`), and append the result
to `overPrompt` under the category identifier. -/
def runCategory (env : Nat → String) (st : TState) (c : CategoryDef) : TState :=
  let vr := runViews env st.k c.views
  match c.fusionBase with
  | some base =>
      let prompt2 := fusionPrompt base vr.1
      let quality_overall := env vr.2.1
      { overPrompt := st.overPrompt ++ "\n\n" ++ c.transcriptLabel ++ " : \n\n" ++ quality_overall,
        entries := st.entries ++ [(c.transcriptLabel, quality_overall)],
        k := vr.2.1 + 1,
        trace := st.trace ++ vr.2.2 ++ [Op.sendPrompt prompt2] }
  | none =>
      let quality_overall := (vr.1.headD ("", "")).2
      { overPrompt := st.overPrompt ++ "\n\n" ++ c.transcriptLabel ++ " : \n\n" ++ quality_overall,
        entries := st.entries ++ [(c.transcriptLabel, quality_overall)],
        k := vr.2.1,
        trace := st.trace ++ vr.2.2 }

/-- Category Definition extracted from `analyzeCardiovascularConditioning`. -/
def cardiovascularConditioningDef : CategoryDef :=
  { transcriptLabel := "cardiovascular conditioning",
    views := [
      ViewSpec.mk BACK_IMAGE "Back Photo"
        "estimate the cardiovascular conditioning number on a scale from 0 to 10 for the person in the photo",
      ViewSpec.mk FRONT_IMAGE "Front Photo"
        "estimate the cardiovascular conditioning number on a scale from 0 to 10 for the person in the photo",
      ViewSpec.mk SIDE_IMAGE "Side Photo"
        "estimate the cardiovascular conditioning number on a scale from 0 to 10 for the person in the photo"],
    fusionBase := some
      "integrate these descriptions to estimate an overall cardiovascular conditioning number on a scale from 0 to 10 for the person." }

/-- Category Definition extracted from `analyzeNeckAndTraps`. -/
def neckAndTrapsDef : CategoryDef :=
  { transcriptLabel := "neck",
    views := [
      ViewSpec.mk BACK_IMAGE "Back Photo"
        "estimate the muscle quality number of the neck and trapezius on a scale from 0 to 10 for the person in the photo",
      ViewSpec.mk FRONT_IMAGE "Front Photo"
        "estimate the muscle quality number of the neck on a scale from 0 to 10 for the person in the photo",
      ViewSpec.mk SIDE_IMAGE "Side Photo"
        "estimate the muscle quality number of the neck and trapezius on a scale from 0 to 10 for the person in the photo"],
    fusionBase := some
      "integrate these descriptions to estimate an overall muscle quality number of the neck and trapezius on a scale from 0 to 10 for the person." }

/-- Category Definition extracted from `analyzeUpperChest`. -/
def upperChestDef : CategoryDef :=
  { transcriptLabel := "upper chest",
    views := [
      ViewSpec.mk FRONT_IMAGE "Front Photo"
        "estimate the muscle quality number of the upper chest on a scale from 0 to 10 for the person in the photo",
      ViewSpec.mk SIDE_IMAGE "Side Photo"
        "estimate the muscle quality number of the upper chest on a scale from 0 to 10 for the person in the photo"],
    fusionBase := some
      "integrate these descriptions to estimate an overall muscle quality number of the upper chest on a scale from 0 to 10 for the person." }

/-- Category Definition extracted from `analyzeLowerChest`. -/
def lowerChestDef : CategoryDef :=
  { transcriptLabel := "lower chest",
    views := [
      ViewSpec.mk FRONT_IMAGE "Front Photo"
        "estimate the muscle quality number of the lower chest on a scale from 0 to 10 for the person in the photo",
      ViewSpec.mk SIDE_IMAGE "Side Photo"
        "estimate the muscle quality number of the lower chest on a scale from 0 to 10 for the person in the photo"],
    fusionBase := some
      "integrate these descriptions to estimate an overall muscle quality number of the lower chest on a scale from 0 to 10 for the person." }

/-- Category Definition extracted from `analyzeUpperAbdominals`. -/
def upperAbdominalsDef : CategoryDef :=
  { transcriptLabel := "upper abdominals",
    views := [
      ViewSpec.mk FRONT_IMAGE "Front Photo"
        "estimate the muscle quality number of the upper abdominals on a scale from 0 to 10 for the person in the photo",
      ViewSpec.mk SIDE_IMAGE "Side Photo"
        "estimate the muscle quality number of the upper abdominals on a scale from 0 to 10 for the person in the photo"],
    fusionBase := some
      "integrate these descriptions to estimate an overall muscle quality number of the upper abdominals on a scale from 0 to 10 for the person." }

/-- Category Definition extracted from `analyzeLowerAbdominals`. -/
def lowerAbdominalsDef : CategoryDef :=
  { transcriptLabel := "lower abdominals",
    views := [
      ViewSpec.mk FRONT_IMAGE "Front Photo"
        "estimate the muscle quality number of the lower abdominals on a scale from 0 to 10 for the person in the photo",
      ViewSpec.mk SIDE_IMAGE "Side Photo"
        "estimate the muscle quality number of the lower abdominals on a scale from 0 to 10 for the person in the photo"],
    fusionBase := some
      "integrate these descriptions to estimate an overall muscle quality number of the lower abdominals on a scale from 0 to 10 for the person." }

/-- Category Definition extracted from `analyzeQuadriceps`. -/
def quadricepsDef : CategoryDef :=
  { transcriptLabel := "quadriceps",
    views := [
      ViewSpec.mk FRONT_IMAGE "Front Photo"
        "estimate the muscle quality number of the quadriceps on a scale from 0 to 10 for the person in the photo",
      ViewSpec.mk SIDE_IMAGE "Side Photo"
        "estimate the muscle quality number of the quadriceps on a scale from 0 to 10 for the person in the photo"],
    fusionBase := some
      "integrate these descriptions to estimate an overall muscle quality number of the quadriceps on a scale from 0 to 10 for the person." }

/-- Category Definition extracted from `analyzeCalves`. -/
def calvesDef : CategoryDef :=
  { transcriptLabel := "calves",
    views := [
      ViewSpec.mk BACK_IMAGE "Back Photo"
        "estimate the muscle quality number of the calves on a scale from 0 to 10 for the person in the photo",
      ViewSpec.mk SIDE_IMAGE "Side Photo"
        "estimate the muscle quality number of the calves on a scale from 0 to 10 for the person in the photo"],
    fusionBase := some
      "integrate these descriptions to estimate an overall muscle quality number of the calves on a scale from 0 to 10 for the person." }

/-- Category Definition extracted from `analyzeHamstrings`. -/
def hamstringsDef : CategoryDef :=
  { transcriptLabel := "hamstrings",
    views := [
      ViewSpec.mk BACK_IMAGE "Back Photo"
        "estimate the muscle quality number of the hamstrings on a scale from 0 to 10 for the person in the photo",
      ViewSpec.mk SIDE_IMAGE "Side Photo"
        "estimate the muscle quality number of the hamstrings on a scale from 0 to 10 for the person in the photo"],
    fusionBase := some
      "integrate these descriptions to estimate an overall muscle quality number of the hamstrings on a scale from 0 to 10 for the person." }

/-- Category Definition extracted from `analyzeLatissimus`. -/
def latissimusDef : CategoryDef :=
  { transcriptLabel := "latissimus",
    views := [
      ViewSpec.mk BACK_IMAGE "Back Photo"
        "estimate the muscle quality number of the latissimus on a scale from 0 to 10 for the person in the photo",
      ViewSpec.mk SIDE_IMAGE "Side Photo"
        "estimate the muscle quality number of the latissimus on a scale from 0 to 10 for the person in the photo"],
    fusionBase := some
      "integrate these descriptions to estimate an overall muscle quality number of the latissimus on a scale from 0 to 10 for the person." }

/-- Category Definition extracted from `analyzeObliques`. -/
def obliquesDef : CategoryDef :=
  { transcriptLabel := "obliques",
    views := [
      ViewSpec.mk BACK_IMAGE "Back Photo"
        "estimate the muscle quality number of the obliques on a scale from 0 to 10 for the person in the photo",
      ViewSpec.mk FRONT_IMAGE "Front Photo"
        "estimate the muscle quality number of the obliques on a scale from 0 to 10 for the person in the photo",
      ViewSpec.mk SIDE_IMAGE "Side Photo"
        "estimate the muscle quality number of the obliques on a scale from 0 to 10 for the person in the photo"],
    fusionBase := some
      "integrate these descriptions to estimate an overall muscle quality number of the obliques on a scale from 0 to 10 for the person." }

/-- Category Definition extracted from `analyzeKineticChain`. -/
def kineticChainDef : CategoryDef :=
  { transcriptLabel := "kinetic chain",
    views := [
      ViewSpec.mk BACK_IMAGE "Back Photo"
        "estimate the kinetic chain number on a scale from 0 to 10 for the person in the photo",
      ViewSpec.mk FRONT_IMAGE "Front Photo"
        "estimate the kinetic chain number on a scale from 0 to 10 for the person in the photo",
      ViewSpec.mk SIDE_IMAGE "Side Photo"
        "estimate the kinetic chain number on a scale from 0 to 10 for the person in the photo"],
    fusionBase := some
      "integrate these descriptions to estimate an overall kinetic chain number on a scale from 0 to 10 for the person." }

/-- Category Definition extracted from `analyzeTriceps`. -/
def tricepsDef : CategoryDef :=
  { transcriptLabel := "triceps",
    views := [
      ViewSpec.mk BACK_IMAGE "Back Photo"
        "estimate the muscle quality number of the triceps on a scale from 0 to 10 for the person in the photo",
      ViewSpec.mk SIDE_IMAGE "Side Photo"
        "estimate the muscle quality number of the triceps on a scale from 0 to 10 for the person in the photo"],
    fusionBase := some
      "integrate these descriptions to estimate an overall muscle quality number of the triceps on a scale from 0 to 10 for the person." }

/-- Category Definition extracted from `analyzeBiceps`. -/
def bicepsDef : CategoryDef :=
  { transcriptLabel := "biceps",
    views := [
      ViewSpec.mk FRONT_IMAGE "Front Photo"
        "estimate the muscle quality number of the biceps on a scale from 0 to 10 for the person in the photo",
      ViewSpec.mk SIDE_IMAGE "Side Photo"
        "estimate the muscle quality number of the biceps on a scale from 0 to 10 for the person in the photo"],
    fusionBase := some
      "integrate these descriptions to estimate an overall muscle quality number of the biceps on a scale from 0 to 10 for the person." }

/-- Category Definition extracted from `analyzeFrontShoulders`. -/
def frontShouldersDef : CategoryDef :=
  { transcriptLabel := "front shoulders",
    views := [
      ViewSpec.mk FRONT_IMAGE "Front Photo"
        "estimate the muscle quality number of the front shoulders on a scale from 0 to 10 for the person in the photo",
      ViewSpec.mk SIDE_IMAGE "Side Photo"
        "estimate the muscle quality number of the front shoulders on a scale from 0 to 10 for the person in the photo"],
    fusionBase := some
      "integrate these descriptions to estimate an overall muscle quality number of the front shoulders on a scale from 0 to 10 for the person." }

/-- Category Definition extracted from `analyzeBackShoulders`. -/
def backShouldersDef : CategoryDef :=
  { transcriptLabel := "rear shoulders",
    views := [
      ViewSpec.mk BACK_IMAGE "Back Photo"
        "estimate the muscle quality number of the rear shoulders on a scale from 0 to 10 for the person in the photo",
      ViewSpec.mk SIDE_IMAGE "Side Photo"
        "estimate the muscle quality number of the rear shoulders on a scale from 0 to 10 for the person in the photo"],
    fusionBase := some
      "integrate these descriptions to estimate an overall muscle quality number of the rear shoulders on a scale from 0 to 10 for the person." }

/-- Category Definition extracted from `analyzePosture`. -/
def postureDef : CategoryDef :=
  { transcriptLabel := "posture",
    views := [
      ViewSpec.mk BACK_IMAGE "Back Photo"
        "estimate a posture quality number on a scale from 0 to 10 for the person in the photo",
      ViewSpec.mk FRONT_IMAGE "Front Photo"
        "estimate a posture quality number on a scale from 0 to 10 for the person in the photo",
      ViewSpec.mk SIDE_IMAGE "Side Photo"
        "estimate a posture quality number on a scale from 0 to 10 for the person in the photo"],
    fusionBase := some
      "integrate these descriptions to estimate an overall posture quality number on a scale from 0 to 10 for the person." }

/-- Category Definition extracted from `analyzeOuterChest`. -/
def outerChestDef : CategoryDef :=
  { transcriptLabel := "outer chest",
    views := [
      ViewSpec.mk FRONT_IMAGE "Front Photo"
        "estimate the muscle quality number of the outer chest on a scale from 0 to 10 for the person in the photo",
      ViewSpec.mk SIDE_IMAGE "Side Photo"
        "estimate the muscle quality number of the outer chest on a scale from 0 to 10 for the person in the photo"],
    fusionBase := some
      "integrate these descriptions to estimate an overall muscle quality number of the outer chest on a scale from 0 to 10 for the person." }

/-- Category Definition extracted from `analyzeUpperLowerSymmetry`. -/
def upperLowerSymmetryDef : CategoryDef :=
  { transcriptLabel := "upper body versus lower body symmetry",
    views := [
      ViewSpec.mk BACK_IMAGE "Back Photo"
        "estimate a quality number for symmetry of upper body versus lower body development on a scale from 0 to 10 for the person in the photo",
      ViewSpec.mk FRONT_IMAGE "Front Photo"
        "estimate a quality number for symmetry of upper body versus lower body development on a scale from 0 to 10 for the person in the photo",
      ViewSpec.mk SIDE_IMAGE "Side Photo"
        "estimate a quality number for symmetry of upper body versus lower body development on a scale from 0 to 10 for the person in the photo"],
    fusionBase := some
      "integrate these descriptions to estimate an overall quality number for symmetry of upper body versus lower body development on a scale from 0 to 10 for the person." }

/-- Category Definition extracted from `analyzeLeftRightSymmetry`. -/
def leftRightSymmetryDef : CategoryDef :=
  { transcriptLabel := "left versus right body symmetry",
    views := [
      ViewSpec.mk BACK_IMAGE "Back Photo"
        "estimate a quality number for symmetry of left-side versus right-side body development on a scale from 0 to 10 for the person in the photo",
      ViewSpec.mk FRONT_IMAGE "Front Photo"
        "estimate a quality number for symmetry of left-side versus right-side body development on a scale from 0 to 10 for the person in the photo"],
    fusionBase := some
      "integrate these descriptions to estimate an overall quality number for symmetry of left-side versus right-side body development on a scale from 0 to 10 for the person." }

/-- Category Definition extracted from `analyzeInnerChest`. -/
def innerChestDef : CategoryDef :=
  { transcriptLabel := "inner chest",
    views := [
      ViewSpec.mk FRONT_IMAGE "Front Photo"
        "estimate the muscle quality number of the inner chest on a scale from 0 to 10 for the person in the photo"],
    fusionBase := none }

/-- Category Definition extracted from `analyzeUpperBack`. -/
def upperBackDef : CategoryDef :=
  { transcriptLabel := "upper back",
    views := [
      ViewSpec.mk BACK_IMAGE "Back Photo"
        "estimate the muscle quality number of the upper back on a scale from 0 to 10 for the person in the photo"],
    fusionBase := none }

/-- Model of `analyzeCardiovascularConditioning`: one category evaluation over its Category Definition. -/
def analyzeCardiovascularConditioning (env : Nat → String) (st : TState) : TState :=
  runCategory env st cardiovascularConditioningDef

/-- Model of `analyzeNeckAndTraps`: one category evaluation over its Category Definition. -/
def analyzeNeckAndTraps (env : Nat → String) (st : TState) : TState :=
  runCategory env st neckAndTrapsDef

/-- Model of `analyzeUpperChest`: one category evaluation over its Category Definition. -/
def analyzeUpperChest (env : Nat → String) (st : TState) : TState :=
  runCategory env st upperChestDef

/-- Model of `analyzeLowerChest`: one category evaluation over its Category Definition. -/
def analyzeLowerChest (env : Nat → String) (st : TState) : TState :=
  runCategory env st lowerChestDef

/-- Model of `analyzeUpperAbdominals`: one category evaluation over its Category Definition. -/
def analyzeUpperAbdominals (env : Nat → String) (st : TState) : TState :=
  runCategory env st upperAbdominalsDef

/-- Model of `analyzeLowerAbdominals`: one category evaluation over its Category Definition. -/
def analyzeLowerAbdominals (env : Nat → String) (st : TState) : TState :=
  runCategory env st lowerAbdominalsDef

/-- Model of `analyzeQuadriceps`: one category evaluation over its Category Definition. -/
def analyzeQuadriceps (env : Nat → String) (st : TState) : TState :=
  runCategory env st quadricepsDef

/-- Model of `analyzeCalves`: one category evaluation over its Category Definition. -/
def analyzeCalves (env : Nat → String) (st : TState) : TState :=
  runCategory env st calvesDef

/-- Model of `analyzeHamstrings`: one category evaluation over its Category Definition. -/
def analyzeHamstrings (env : Nat → String) (st : TState) : TState :=
  runCategory env st hamstringsDef

/-- Model of `analyzeLatissimus`: one category evaluation over its Category Definition. -/
def analyzeLatissimus (env : Nat → String) (st : TState) : TState :=
  runCategory env st latissimusDef

/-- Model of `analyzeObliques`: one category evaluation over its Category Definition. -/
def analyzeObliques (env : Nat → String) (st : TState) : TState :=
  runCategory env st obliquesDef

/-- Model of `analyzeKineticChain`: one category evaluation over its Category Definition. -/
def analyzeKineticChain (env : Nat → String) (st : TState) : TState :=
  runCategory env st kineticChainDef

/-- Model of `analyzeTriceps`: one category evaluation over its Category Definition. -/
def analyzeTriceps (env : Nat → String) (st : TState) : TState :=
  runCategory env st tricepsDef

/-- Model of `analyzeBiceps`: one category evaluation over its Category Definition. -/
def analyzeBiceps (env : Nat → String) (st : TState) : TState :=
  runCategory env st bicepsDef

/-- Model of `analyzeFrontShoulders`: one category evaluation over its Category Definition. -/
def analyzeFrontShoulders (env : Nat → String) (st : TState) : TState :=
  runCategory env st frontShouldersDef

/-- Model of `analyzeBackShoulders`: one category evaluation over its Category Definition. -/
def analyzeBackShoulders (env : Nat → String) (st : TState) : TState :=
  runCategory env st backShouldersDef

/-- Model of `analyzePosture`: one category evaluation over its Category Definition. -/
def analyzePosture (env : Nat → String) (st : TState) : TState :=
  runCategory env st postureDef

/-- Model of `analyzeOuterChest`: one category evaluation over its Category Definition. -/
def analyzeOuterChest (env : Nat → String) (st : TState) : TState :=
  runCategory env st outerChestDef

/-- Model of `analyzeUpperLowerSymmetry`: one category evaluation over its Category Definition. -/
def analyzeUpperLowerSymmetry (env : Nat → String) (st : TState) : TState :=
  runCategory env st upperLowerSymmetryDef

/-- Model of `analyzeLeftRightSymmetry`: one category evaluation over its Category Definition. -/
def analyzeLeftRightSymmetry (env : Nat → String) (st : TState) : TState :=
  runCategory env st leftRightSymmetryDef

/-- Model of `analyzeInnerChest`: one category evaluation over its Category Definition. -/
def analyzeInnerChest (env : Nat → String) (st : TState) : TState :=
  runCategory env st innerChestDef

/-- Model of `analyzeUpperBack`: one category evaluation over its Category Definition. -/
def analyzeUpperBack (env : Nat → String) (st : TState) : TState :=
  runCategory env st upperBackDef

/-- The configured Category Definitions, in the evaluation order of
`overallRun` (lines 1091-1112). -/
def categoryDefs : List CategoryDef :=
  [cardiovascularConditioningDef,
    neckAndTrapsDef,
    upperChestDef,
    lowerChestDef,
    upperAbdominalsDef,
    lowerAbdominalsDef,
    quadricepsDef,
    calvesDef,
    hamstringsDef,
    latissimusDef,
    obliquesDef,
    kineticChainDef,
    tricepsDef,
    bicepsDef,
    frontShouldersDef,
    backShouldersDef,
    postureDef,
    outerChestDef,
    upperLowerSymmetryDef,
    leftRightSymmetryDef,
    innerChestDef,
    upperBackDef]

/-- The category evaluations of `overallRun` as a fold of `runCategory`
over the configured Category Definitions. -/
def categoriesRun (env : Nat → String) (st : TState) : TState :=
  categoryDefs.foldl (runCategory env) st

/-- The yes-detection of `srchExerciseEntries` (line 977): the response
contains one of the four affirmative substrings. -/
def yesMatch (yesNo : String) : Bool :=
  hasSubstr yesNo "Yes" || hasSubstr yesNo "yes" ||
    hasSubstr yesNo "affirmative" || hasSubstr yesNo "Affirmative"

/-- The yes/no question `srchExerciseEntries` builds for one exercise name
(line 970). -/
def srchQuery (inWork item : String) : String :=
  "Is the following exercise already in the workout below: " ++ item ++ "?  Please answer yes or no.\n\n" ++ inWork

/-- Python `set.add` on an insertion-ordered duplicate-free list. -/
def setAdd (l : List String) (x : String) : List String :=
  if x ∈ l then l else l ++ [x]

/-- The query loop of `srchExerciseEntries` (lines 968-977): ask the yes/no
question for every exercise of the family, accumulating the `found` flag
across all members (no short-circuit: every member is queried). -/
def srchLoop (env : Nat → String) (inWork : String) :
    List String → Nat → Bool → Bool × Nat × List Op
  | [], k, found => (found, k, [])
  | item :: rest, k, found =>
      let yesNo := env k
      let found2 := found || yesMatch yesNo
      let r := srchLoop env inWork rest (k + 1) found2
      (r.1, r.2.1, Op.sendPrompt (srchQuery inWork item) :: r.2.2)

/-- Model of `srchExerciseEntries` (lines 964-981): query every family member, and
if any response matched, add every member of the family to the output set. -/
def srchExerciseEntries (env : Nat → String) (k : Nat) (inWork : String)
    (inList outList : List String) : List String × Nat × List Op :=
  let r := srchLoop env inWork inList k false
  ((if r.1 then inList.foldl setAdd outList else outList), r.2.1, r.2.2)

/-- The leg-raise Exercise Family (lines 1018-1020), in insertion order. -/
def legRaiseFamily : List String :=
  ["Hanging Leg Lifts", "Hanging Toes-To_Bar Leg Lifts"]

/-- The push-up Exercise Family (lines 1026-1028), in insertion order. -/
def pushUpFamily : List String :=
  ["Standard Push-Ups", "One-Arm Push-Ups"]

/-- The pull-up Exercise Family (lines 1034-1038), in insertion order. -/
def pullUpFamily : List String :=
  ["Pull-Ups", "Chin-Ups", "Assisted One-Arm Pull-Ups"]

/-- The exercise-name listing loop that opens `prompt3` (lines 1053-1060):
starting from the fixed sentence opening, append each redundant exercise
name, comma-separating all but the first. -/
def exerciseListing : List String → String → Bool → String
  | [], acc, _ => acc
  | exer :: rest, acc, started =>
      exerciseListing rest (acc ++ (if started then ", " else "") ++ exer) true

/-- Output of the Overall Aggregator: the two persisted artifacts, the
redundant-exercise set, the next call index and the calls it made (its own
calls only, which in `overallRun` follow every category evaluation call). -/
structure OverallResult where
  affirmationsFile : String
  finalWorkoutFile : String
  outSet : List String
  k : Nat
  trace : List Op
deriving Repr

/-- Model of `analyzeOverall` (lines 991-1073): rank the four weakest categories from
the full transcript, generate affirmations and a draft workout plan, run the
three family redundancy checks, and either rewrite the plan (when the
redundant set is non-empty) or persist the draft verbatim. -/
def analyzeOverall (env : Nat → String) (st : TState) : OverallResult :=
  let prompt := "summarize the four categories listed below with the lowest numerical ratings.  Where there is a tie and multiple categories have a low numerical rating, exercise judgement based on the surrounding descriptions to determine which four areas need the most work.  For each of the four lowest-rated areas, include information relevant to creating a customized workout to address the lagging area.\n\n" ++ st.overPrompt
  let overall_areas := env st.k
  let promptA := "you are the mindfulness coach for the athlete described below.  write a comprehensive list of affirmations to assert performing workouts to develop the following lagging areas and affirmations to assert peak development in the following lagging areas:\n\n" ++ overall_areas
  let affirmations := env (st.k + 1)
  let prompt2 := "generate a set of customized workouts for an athlete to address the following lagging areas:\n\n" ++ overall_areas
  let overall_work := env (st.k + 2)
  let r1 := srchExerciseEntries env (st.k + 3) overall_work legRaiseFamily []
  let r2 := srchExerciseEntries env r1.2.1 overall_work pushUpFamily r1.1
  let r3 := srchExerciseEntries env r2.2.1 overall_work pullUpFamily r2.1
  let outSet := r3.1
  let baseTrace := [Op.sendPrompt prompt, Op.sendPromptGptOss promptA,
    Op.sendPromptGptOss prompt2] ++ r1.2.2 ++ r2.2.2 ++ r3.2.2
  if outSet.length > 0 then
    let prompt3 := exerciseListing outSet "The athelete is already doing the following exercises: " false ++ ".  Rewrite the workout below so that it doesn\x27t contain any of the aforementioned exercises.  When an exercisde is removed. replace it with a more intense exercise in the same category that will challenge the athlete.  When an exercise is removed, try to replace it with a more advanced exercise in a similar progression.  For instance, if hanging leg raises are to be removed then some potential replacements might be ice-cream makers or some other exercise starting a calisthenic progression to a front lever.  Replace exercises in the following workout:\n\n" ++ overall_work
    let final_work := env r3.2.1
    { affirmationsFile := affirmations, finalWorkoutFile := final_work,
      outSet := outSet, k := r3.2.1 + 1,
      trace := baseTrace ++ [Op.sendPromptGptOss prompt3] }
  else
    { affirmationsFile := affirmations, finalWorkoutFile := overall_work,
      outSet := outSet, k := r3.2.1, trace := baseTrace }

/-- Result of a complete run: the transcript state after the 22 category
evaluations, and the Overall Aggregator output. -/
structure RunResult where
  transcript : TState
  overall : OverallResult

/-- Model of `overallRun` (lines 1086-1114): the fixed category evaluation sequence
followed by the Overall Aggregator. -/
def overallRun (env : Nat → String) : RunResult :=
  let st1 := analyzeCardiovascularConditioning env initState
  let st2 := analyzeNeckAndTraps env st1
  let st3 := analyzeUpperChest env st2
  let st4 := analyzeLowerChest env st3
  let st5 := analyzeUpperAbdominals env st4
  let st6 := analyzeLowerAbdominals env st5
  let st7 := analyzeQuadriceps env st6
  let st8 := analyzeCalves env st7
  let st9 := analyzeHamstrings env st8
  let st10 := analyzeLatissimus env st9
  let st11 := analyzeObliques env st10
  let st12 := analyzeKineticChain env st11
  let st13 := analyzeTriceps env st12
  let st14 := analyzeBiceps env st13
  let st15 := analyzeFrontShoulders env st14
  let st16 := analyzeBackShoulders env st15
  let st17 := analyzePosture env st16
  let st18 := analyzeOuterChest env st17
  let st19 := analyzeUpperLowerSymmetry env st18
  let st20 := analyzeLeftRightSymmetry env st19
  let st21 := analyzeInnerChest env st20
  let st22 := analyzeUpperBack env st21
  ⟨st22, analyzeOverall env st22⟩

/-- The validity predicate, phrased from the specification's words: a
response is INVALID exactly when it contains one of the case-sensitive
refusal substrings "inappropriate", "not appropriate", "not to judge", or
contains no decimal digit character. -/
def ResponseInvalidSpec (desc : String) : Prop :=
  ("inappropriate".data <:+: desc.data) ∨ ("not appropriate".data <:+: desc.data) ∨
    ("not to judge".data <:+: desc.data) ∨ ¬ ∃ c ∈ desc.data, c.isDigit = true

/-- Attempt oracle that always answers with a refusal phrase that also
contains a digit. -/
def oracleAlwaysRefuses : Nat → String := fun _ => "inappropriate 5"

/-- Attempt oracle whose first response is invalid and whose later
responses are valid. -/
def oracleFirstInvalid : Nat → String :=
  fun n => if n = 0 then "inappropriate 5" else "7 out of 10"

/-- Test selecting the validated-acquisition calls of a trace. -/
def isAcquire : Op → Bool
  | .acquireRating _ _ => true
  | _ => false

/-- The transport-failure condition of the claim: the endpoint is
unreachable or the HTTP status is not a success. -/
def TransportFailure : TransportResult → Prop
  | .unreachable => True
  | .response status _ => status ≠ 200

/-- Attempt oracle that always answers with the 404 placeholder. -/
def oracleError404 : Nat → String := fun _ => "Error: " ++ Nat.repr 404

/-- Test selecting the gpt-oss (text-generation agent) calls of a trace. -/
def isGptOssCall : Op → Bool
  | .sendPromptGptOss _ => true
  | _ => false

/-- A family is flagged when some member's query response (the response of
the call at the member's position) matches an affirmative substring. -/
def familyFlagged (env : Nat → String) (k : Nat) (inList : List String) : Prop :=
  ∃ i, i < inList.length ∧ yesMatch (env (k + i)) = true

/-- Query environment that always answers "No". -/
def envAllNo : Nat → String := fun _ => "No"

/-- Query environment that always answers "Yes". -/
def envAllYes : Nat → String := fun _ => "Yes"

/-- The (photo label, fused text) pairs a category's view acquisitions
produce: each view consumes 4 calls and its fused text is the 4th response. -/
def viewTexts (env : Nat → String) (k : Nat) : List ViewSpec → List (String × String)
  | [] => []
  | v :: rest => (v.photoLabel, env (k + 3)) :: viewTexts env (k + 4) rest

/-- The opinion-source calls a category's view acquisitions issue. -/
def viewOps (env : Nat → String) (k : Nat) : List ViewSpec → List Op
  | [] => []
  | v :: rest =>
      [Op.acquireRating v.image (v.prompt ++ PROMPT_ENGINEERING_RATING),
        Op.acquireRating v.image (v.prompt ++ PROMPT_ENGINEERING_RATING),
        Op.acquireRating v.image (v.prompt ++ PROMPT_ENGINEERING_RATING),
        Op.sendPrompt ("integrate these descriptions to generate an overall number for the person.\n\nDescription A:\n\n" ++ env k ++ "\n\nDescription B:\n\n" ++ env (k + 1) ++ "\n\nDescription C:\n\n" ++ env (k + 2))] ++
        viewOps env (k + 4) rest

/-- The claim's property for one Category Definition: after the per-view
acquisitions (4 calls each) the evaluator makes one additional
opinion-source call and appends that call's response to the transcript
under the category identifier. -/
def CategoryFusionClaimAt (env : Nat → String) (st : TState) (c : CategoryDef) : Prop :=
  (runCategory env st c).k = st.k + 4 * c.views.length + 1 ∧
  (runCategory env st c).entries =
    st.entries ++ [(c.transcriptLabel, env (st.k + 4 * c.views.length))]

/-- Rendering of the transcript entries into the `overPrompt` string, one
"\n\n<identifier> : \n\n<text>" section per entry, in order. -/
def transcriptRender (entries : List (String × String)) : String :=
  entries.foldl (fun acc e => acc ++ "\n\n" ++ e.1 ++ " : \n\n" ++ e.2) ""

/-- The 22 transcript identifiers, in the evaluation order of `overallRun`. -/
def categoryLabels : List String :=
  ["cardiovascular conditioning", "neck", "upper chest", "lower chest",
    "upper abdominals", "lower abdominals", "quadriceps", "calves", "hamstrings",
    "latissimus", "obliques", "kinetic chain", "triceps", "biceps",
    "front shoulders", "rear shoulders", "posture", "outer chest",
    "upper body versus lower body symmetry", "left versus right body symmetry",
    "inner chest", "upper back"]

/-- Substring reflection: the Bool test agrees with list infixing of the
underlying character lists. -/
theorem hasSubstr_iff (s pat : String) :
    hasSubstr s pat = true ↔ pat.data <:+: s.data := by
  unfold hasSubstr
  exact decide_eq_true_iff

/-- Digit reflection: the Bool test agrees with existence of a decimal
digit character. -/
theorem hasDigit_iff (s : String) :
    hasDigit s = true ↔ ∃ c ∈ s.data, c.isDigit = true := by
  unfold hasDigit
  simp [List.any_eq_true]

/-- A pattern containing a character the text lacks is not a substring of
the text. -/
theorem hasSubstr_eq_false_of_missing {s pat : String} {c : Char}
    (hc : c ∈ pat.data) (hs : c ∉ s.data) : hasSubstr s pat = false := by
  rw [Bool.eq_false_iff]
  intro h
  rcases (hasSubstr_iff s pat).mp h with ⟨u, v, huv⟩
  exact hs (by rw [← huv]; simp [hc])

/-- The loop counter of the retry loop never decreases and grows by at most
the remaining fuel. -/
theorem ratingLoopAux_count_le (oracle : Nat → String) (fuel : Nat) :
    ∀ desc count, count ≤ (ratingLoopAux oracle fuel desc count).2 ∧
      (ratingLoopAux oracle fuel desc count).2 ≤ count + fuel := by
  induction fuel with
  | zero => intro desc count; simp [ratingLoopAux]
  | succ fuel ih =>
    intro desc count
    by_cases h : invalidRating desc = true
    · rw [ratingLoopAux, if_pos h]
      have := ih (oracle (count + 1)) (count + 1)
      omega
    · rw [ratingLoopAux, if_neg h]
      omega

/-- If every response the loop can reach is invalid, the loop exhausts its
fuel and ends on the last attempted response. -/
theorem ratingLoopAux_all_invalid (oracle : Nat → String) (fuel : Nat) :
    ∀ count, (∀ j, count ≤ j → j ≤ count + fuel → invalidRating (oracle j) = true) →
      ratingLoopAux oracle fuel (oracle count) count = (oracle (count + fuel), count + fuel) := by
  induction fuel with
  | zero => intro count h; simp [ratingLoopAux]
  | succ fuel ih =>
    intro count h
    have hc : invalidRating (oracle count) = true := h count le_rfl (by omega)
    rw [ratingLoopAux, if_pos hc]
    have := ih (count + 1) (fun j h1 h2 => h j (by omega) (by omega))
    rw [this]
    have he : count + 1 + fuel = count + (fuel + 1) := by omega
    rw [he]

/-- If attempt `i` is the first valid response within the loop's reach, the
loop stops there with counter `i`. -/
theorem ratingLoopAux_first_valid (oracle : Nat → String) (fuel : Nat) :
    ∀ count i, count ≤ i → i ≤ count + fuel → invalidRating (oracle i) = false →
      (∀ j, count ≤ j → j < i → invalidRating (oracle j) = true) →
      ratingLoopAux oracle fuel (oracle count) count = (oracle i, i) := by
  induction fuel with
  | zero =>
    intro count i h1 h2 hv hj
    have he : i = count := by omega
    subst he
    simp [ratingLoopAux]
  | succ fuel ih =>
    intro count i h1 h2 hv hj
    by_cases hc : count = i
    · subst hc
      rw [ratingLoopAux, if_neg (by simp [hv])]
    · have hcv : invalidRating (oracle count) = true := hj count le_rfl (by omega)
      rw [ratingLoopAux, if_pos hcv]
      exact ih (count + 1) i (by omega) (by omega) hv (fun j ha hb => hj j (by omega) hb)

/-- C1: the Validated Rating Acquirer's validity predicate classifies a
response as INVALID exactly when it contains one of the case-sensitive
substrings "inappropriate", "not appropriate", "not to judge", or contains
no decimal digit character; and for every response containing
"inappropriate" (in particular also when it contains a digit) the Acquirer
issues at least one retry, so it makes at least 2 attempts. -/
theorem C1_invalid_predicate_and_retry (desc : String) :
    (invalidRating desc = true ↔ ResponseInvalidSpec desc) ∧
    (("inappropriate".data <:+: desc.data) →
      ∀ oracle : Nat → String, oracle 0 = desc → 2 ≤ ratingAttempts oracle) := by
  constructor
  · unfold ResponseInvalidSpec
    rw [← hasSubstr_iff, ← hasSubstr_iff, ← hasSubstr_iff]
    unfold invalidRating
    rw [← hasDigit_iff]
    simp [or_assoc]
  · intro h oracle h0
    have hinv : invalidRating desc = true := by
      unfold invalidRating
      rw [Bool.or_eq_true, Bool.or_eq_true, Bool.or_eq_true]
      exact Or.inl (Or.inl (Or.inl ((hasSubstr_iff desc "inappropriate").mpr h)))
    unfold ratingAttempts
    rw [show (15 : Nat) = 14 + 1 from rfl, ratingLoopAux, h0, if_pos hinv]
    have := (ratingLoopAux_count_le oracle 14 (oracle (0 + 1)) (0 + 1)).1
    omega

/-- C1 witness: on the response "inappropriate 5" (refusal phrase plus a
digit) the Acquirer still retries. -/
theorem C1_witness : 2 ≤ ratingAttempts oracleAlwaysRefuses :=
  (C1_invalid_predicate_and_retry "inappropriate 5").2 (by decide) oracleAlwaysRefuses rfl

/-- C2: the Acquirer makes between 1 and 16 attempts; it returns the first
valid response when one occurs among the 16 reachable attempts, and when
all 16 attempts are invalid it returns the 16th response verbatim (the
loop returns it as a normal value; no error is raised). -/
theorem C2_retry_bounds (oracle : Nat → String) :
    (1 ≤ ratingAttempts oracle ∧ ratingAttempts oracle ≤ 16) ∧
    (∀ i, i ≤ 15 → invalidRating (oracle i) = false →
      (∀ j, j < i → invalidRating (oracle j) = true) →
      analyze_image_rating_internal oracle = oracle i ∧ ratingAttempts oracle = i + 1) ∧
    ((∀ i, i ≤ 15 → invalidRating (oracle i) = true) →
      analyze_image_rating_internal oracle = oracle 15 ∧ ratingAttempts oracle = 16) := by
  refine ⟨⟨?_, ?_⟩, ?_, ?_⟩
  · unfold ratingAttempts
    omega
  · unfold ratingAttempts
    have := (ratingLoopAux_count_le oracle 15 (oracle 0) 0).2
    omega
  · intro i h1 hv hj
    have h := ratingLoopAux_first_valid oracle 15 0 i (by omega) (by omega) hv
      (fun j _ hb => hj j hb)
    unfold analyze_image_rating_internal ratingAttempts
    rw [h]
    exact ⟨rfl, rfl⟩
  · intro h
    have h2 := ratingLoopAux_all_invalid oracle 15 0 (fun j _ h2 => h j (by omega))
    unfold analyze_image_rating_internal ratingAttempts
    rw [h2]
    exact ⟨rfl, rfl⟩

/-- C2 witness: with one invalid response followed by a valid one, the
Acquirer returns the first valid response after 2 attempts. -/
theorem C2_witness :
    analyze_image_rating_internal oracleFirstInvalid = "7 out of 10" ∧
      ratingAttempts oracleFirstInvalid = 2 := by
  have h := (C2_retry_bounds oracleFirstInvalid).2.1 1 (by omega) (by decide)
    (by
      intro j hj
      have hj0 : j = 0 := by omega
      subst hj0
      decide)
  simpa [oracleFirstInvalid] using h

/-- C3: one Multi-Opinion Fuser invocation appends the best-guess suffix to
the base prompt once, issues exactly 3 validated acquisitions with the
identical augmented prompt, issues exactly 1 further text-only call whose
prompt embeds the three raw texts labelled A/B/C, and returns that call's
response. -/
theorem C3_fuser_call_pattern (env : Nat → String) (k : Nat)
    (image_path inPrompt : String) :
    ((analyze_image_rating env k image_path inPrompt).2.2.filter isAcquire =
      List.replicate 3 (Op.acquireRating image_path (inPrompt ++ PROMPT_ENGINEERING_RATING))) ∧
    ((analyze_image_rating env k image_path inPrompt).2.2.filter (fun o => !(isAcquire o)) =
      [Op.sendPrompt ("integrate these descriptions to generate an overall number for the person.\n\nDescription A:\n\n" ++ env k ++ "\n\nDescription B:\n\n" ++ env (k + 1) ++ "\n\nDescription C:\n\n" ++ env (k + 2))]) ∧
    (analyze_image_rating env k image_path inPrompt).1 = env (k + 3) ∧
    (analyze_image_rating env k image_path inPrompt).2.1 = k + 4 :=
  ⟨rfl, rfl, rfl, rfl⟩

/-- C8 counterexample: a 404 status is a transport-level failure, yet
`analyze_image_internal` returns the placeholder text "Error: 404" as a
normal value instead of aborting, so the pipeline continues past it. -/
theorem C8_counterexample :
    TransportFailure (TransportResult.response 404 "irrelevant") ∧
      analyze_image_internal (TransportResult.response 404 "irrelevant") =
        Except.ok "Error: 404" := by
  constructor
  · intro h
    simp at h
  · rfl

/-- C8 amended: an unreachable endpoint propagates as an uncaught exception
and aborts the run, but a non-success HTTP status does not abort: all three
call wrappers convert it to the placeholder string "Error: <status>" and
return normally, so the pipeline continues with placeholder text. -/
theorem C8_transport_status (s : Nat) (b : String) (hs : s ≠ 200) :
    analyze_image_internal TransportResult.unreachable = Except.error () ∧
    send_prompt TransportResult.unreachable = Except.error () ∧
    send_prompt_gpt_oss TransportResult.unreachable = Except.error () ∧
    analyze_image_internal (TransportResult.response s b) = Except.ok ("Error: " ++ Nat.repr s) ∧
    send_prompt (TransportResult.response s b) = Except.ok ("Error: " ++ Nat.repr s) ∧
    send_prompt_gpt_oss (TransportResult.response s b) = Except.ok ("Error: " ++ Nat.repr s) := by
  refine ⟨rfl, rfl, rfl, ?_, ?_, ?_⟩ <;>
    simp [analyze_image_internal, send_prompt, send_prompt_gpt_oss, hs]

/-- C8 witness: concrete instance at status 500. -/
theorem C8_witness :
    analyze_image_internal TransportResult.unreachable = Except.error () ∧
    send_prompt TransportResult.unreachable = Except.error () ∧
    send_prompt_gpt_oss TransportResult.unreachable = Except.error () ∧
    analyze_image_internal (TransportResult.response 500 "x") = Except.ok ("Error: " ++ Nat.repr 500) ∧
    send_prompt (TransportResult.response 500 "x") = Except.ok ("Error: " ++ Nat.repr 500) ∧
    send_prompt_gpt_oss (TransportResult.response 500 "x") = Except.ok ("Error: " ++ Nat.repr 500) :=
  C8_transport_status 500 "x" (by decide)

/-- Every digit character produced by `Nat.digitChar` below base 10 is a
decimal digit. -/
theorem digitChar_isDigit {m : Nat} (h : m < 10) : (Nat.digitChar m).isDigit = true := by
  interval_cases m <;> decide

/-- All characters `Nat.toDigitsCore` emits in base 10 are decimal digits. -/
theorem toDigitsCore_all_digits (f : Nat) :
    ∀ (n : Nat) (ds : List Char), (∀ c ∈ ds, c.isDigit = true) →
      ∀ c ∈ Nat.toDigitsCore 10 f n ds, c.isDigit = true := by
  induction f with
  | zero =>
    intro n ds hds c hc
    simp only [Nat.toDigitsCore] at hc
    exact hds c hc
  | succ f ih =>
    intro n ds hds c hc
    simp only [Nat.toDigitsCore] at hc
    have hd : (Nat.digitChar (n % 10)).isDigit = true :=
      digitChar_isDigit (Nat.mod_lt _ (by omega))
    by_cases h0 : n / 10 = 0
    · simp only [h0, if_pos rfl] at hc
      rcases List.mem_cons.mp hc with rfl | hc2
      · exact hd
      · exact hds c hc2
    · simp only [h0, if_neg h0] at hc
      exact ih (n / 10) _ (by
        intro c2 hc2
        rcases List.mem_cons.mp hc2 with rfl | hc3
        · exact hd
        · exact hds c2 hc3) c hc

/-- The function `Nat.toDigitsCore` never shrinks its accumulator. -/
theorem toDigitsCore_length_le (f : Nat) :
    ∀ (n : Nat) (ds : List Char), ds.length ≤ (Nat.toDigitsCore 10 f n ds).length := by
  induction f with
  | zero => intro n ds; simp [Nat.toDigitsCore]
  | succ f ih =>
    intro n ds
    simp only [Nat.toDigitsCore]
    by_cases h0 : n / 10 = 0
    · simp [h0]
    · rw [if_neg h0]
      calc ds.length ≤ (Nat.digitChar (n % 10) :: ds).length := by simp
        _ ≤ _ := ih (n / 10) _

/-- Every character of the decimal representation of a natural number is a
decimal digit. -/
theorem repr_data_digits (n : Nat) : ∀ c ∈ (Nat.repr n).data, c.isDigit = true := by
  intro c hc
  have he : (Nat.repr n).data = Nat.toDigitsCore 10 (n + 1) n [] := rfl
  rw [he] at hc
  exact toDigitsCore_all_digits (n + 1) n [] (by simp) c hc

/-- The decimal representation of a natural number is never empty. -/
theorem repr_data_ne_nil (n : Nat) : (Nat.repr n).data ≠ [] := by
  have he : (Nat.repr n).data = Nat.toDigitsCore 10 (n + 1) n [] := rfl
  rw [he]
  simp only [Nat.toDigitsCore]
  by_cases h0 : n / 10 = 0
  · simp [h0]
  · rw [if_neg h0]
    have hl := toDigitsCore_length_le n (n / 10) [Nat.digitChar (n % 10)]
    intro hcon
    rw [hcon] at hl
    simp at hl

/-- A response already valid on arrival ends the retry loop at once. -/
theorem ratingLoopAux_valid (oracle : Nat → String) (fuel : Nat) (desc : String)
    (count : Nat) (h : invalidRating desc = false) :
    ratingLoopAux oracle fuel desc count = (desc, count) := by
  cases fuel with
  | zero => rfl
  | succ fuel => rw [ratingLoopAux, if_neg (by simp [h])]

/-- The transport placeholder "Error: <status>" is classified as a valid
rating: it contains no refusal phrase and always contains a digit. -/
theorem errorPlaceholder_valid (s : Nat) :
    invalidRating ("Error: " ++ Nat.repr s) = false := by
  have hp : 'p' ∉ ("Error: " ++ Nat.repr s).data := by
    rw [String.data_append]
    intro hmem
    rcases List.mem_append.mp hmem with h | h
    · simp at h
    · have := repr_data_digits s 'p' h
      simp at this
  have hj : 'j' ∉ ("Error: " ++ Nat.repr s).data := by
    rw [String.data_append]
    intro hmem
    rcases List.mem_append.mp hmem with h | h
    · simp at h
    · have := repr_data_digits s 'j' h
      simp at this
  have h1 : hasSubstr ("Error: " ++ Nat.repr s) "inappropriate" = false :=
    hasSubstr_eq_false_of_missing (by decide) hp
  have h2 : hasSubstr ("Error: " ++ Nat.repr s) "not appropriate" = false :=
    hasSubstr_eq_false_of_missing (by decide) hp
  have h3 : hasSubstr ("Error: " ++ Nat.repr s) "not to judge" = false :=
    hasSubstr_eq_false_of_missing (by decide) hj
  have h4 : hasDigit ("Error: " ++ Nat.repr s) = true := by
    rw [hasDigit_iff]
    rcases hne : (Nat.repr s).data with _ | ⟨c, rest⟩
    · exact absurd hne (repr_data_ne_nil s)
    · refine ⟨c, ?_, ?_⟩
      · rw [String.data_append, List.mem_append, hne]
        exact Or.inr (List.mem_cons_self c rest)
      · exact repr_data_digits s c (by rw [hne]; exact List.mem_cons_self c rest)
  unfold invalidRating
  rw [h1, h2, h3, h4]
  rfl

/-- C9: a non-success HTTP status makes the call wrappers return the
placeholder "Error: <status>"; that text contains a digit and no refusal
phrase, so the Validated Rating Acquirer classifies it as valid and accepts
it on the first attempt, with no retry. -/
theorem C9_error_placeholder_accepted (s : Nat) (b : String) (hs : s ≠ 200)
    (oracle : Nat → String) (h0 : oracle 0 = "Error: " ++ Nat.repr s) :
    analyze_image_internal (TransportResult.response s b) = Except.ok ("Error: " ++ Nat.repr s) ∧
    invalidRating ("Error: " ++ Nat.repr s) = false ∧
    analyze_image_rating_internal oracle = "Error: " ++ Nat.repr s ∧
    ratingAttempts oracle = 1 := by
  have hv := errorPlaceholder_valid s
  have hloop : ratingLoopAux oracle 15 (oracle 0) 0 = ("Error: " ++ Nat.repr s, 0) := by
    rw [h0]
    exact ratingLoopAux_valid oracle 15 _ 0 hv
  refine ⟨?_, hv, ?_, ?_⟩
  · simp [analyze_image_internal, hs]
  · unfold analyze_image_rating_internal
    rw [hloop]
  · unfold ratingAttempts
    rw [hloop]

/-- C9 witness: concrete instance at status 404. -/
theorem C9_witness :
    analyze_image_internal (TransportResult.response 404 "") = Except.ok ("Error: " ++ Nat.repr 404) ∧
    invalidRating ("Error: " ++ Nat.repr 404) = false ∧
    analyze_image_rating_internal oracleError404 = "Error: " ++ Nat.repr 404 ∧
    ratingAttempts oracleError404 = 1 :=
  C9_error_placeholder_accepted 404 "" (by decide) oracleError404 rfl

/-- A contiguous part of a list stays one after appending on the right. -/
theorem partOf_append_right {α : Type} {l m : List α} (r : List α)
    (h : l <:+: m) : l <:+: m ++ r := by
  rcases h with ⟨u, v, huv⟩
  exact ⟨u, v ++ r, by rw [← huv]; simp⟩

/-- A contiguous part of a list stays one after appending on the left. -/
theorem partOf_append_left {α : Type} {l m : List α} (r : List α)
    (h : l <:+: m) : l <:+: r ++ m := by
  rcases h with ⟨u, v, huv⟩
  exact ⟨r ++ u, v, by rw [← huv]; simp⟩

/-- The listing loop only extends its accumulator on the right. -/
theorem exerciseListing_acc (l : List String) :
    ∀ (acc : String) (b : Bool), ∃ t, (exerciseListing l acc b).data = acc.data ++ t := by
  induction l with
  | nil => intro acc b; exact ⟨[], by simp [exerciseListing]⟩
  | cons e rest ih =>
    intro acc b
    rcases ih (acc ++ (if b then ", " else "") ++ e) true with ⟨t, ht⟩
    refine ⟨(if b then (", " : String) else "").data ++ e.data ++ t, ?_⟩
    show (exerciseListing rest (acc ++ (if b then ", " else "") ++ e) true).data = _
    rw [ht]
    simp [String.data_append]

/-- Every listed exercise name occurs verbatim inside the listing text. -/
theorem exerciseListing_mem (l : List String) :
    ∀ (acc : String) (b : Bool) (x : String), x ∈ l →
      x.data <:+: (exerciseListing l acc b).data := by
  induction l with
  | nil => intro acc b x hx; simp at hx
  | cons e rest ih =>
    intro acc b x hx
    rcases List.mem_cons.mp hx with rfl | hx2
    · rcases exerciseListing_acc rest (acc ++ (if b then ", " else "") ++ x) true with ⟨t, ht⟩
      show x.data <:+: (exerciseListing rest (acc ++ (if b then ", " else "") ++ x) true).data
      rw [ht]
      refine ⟨(acc ++ (if b then ", " else "")).data, t, ?_⟩
      simp [String.data_append]
    · exact ih _ true x hx2

/-- Membership after a Python-style `set.add`. -/
theorem mem_setAdd {l : List String} {a x : String} :
    x ∈ setAdd l a ↔ x ∈ l ∨ x = a := by
  unfold setAdd
  split
  · rename_i h
    constructor
    · exact Or.inl
    · rintro (hx | rfl)
      · exact hx
      · exact h
  · simp

/-- Membership after adding a whole family to the output set. -/
theorem mem_foldl_setAdd (l : List String) :
    ∀ (out : List String) (x : String), x ∈ l.foldl setAdd out ↔ x ∈ out ∨ x ∈ l := by
  induction l with
  | nil => intro out x; simp
  | cons a rest ih =>
    intro out x
    rw [List.foldl_cons, ih (setAdd out a) x, mem_setAdd, List.mem_cons]
    tauto

/-- The accumulated `found` flag of the query loop is the OR of the initial
flag and the per-member matches. -/
theorem srchLoop_found (env : Nat → String) (inWork : String) (l : List String) :
    ∀ (k : Nat) (b : Bool),
      ((srchLoop env inWork l k b).1 = true ↔ b = true ∨ familyFlagged env k l) := by
  induction l with
  | nil => intro k b; simp [srchLoop, familyFlagged]
  | cons item rest ih =>
    intro k b
    show ((srchLoop env inWork rest (k + 1) (b || yesMatch (env k))).1 = true ↔ _)
    rw [ih (k + 1) (b || yesMatch (env k))]
    unfold familyFlagged
    constructor
    · rintro (hb | ⟨i, hi, hy⟩)
      · rcases Bool.or_eq_true _ _ |>.mp hb with hb2 | hy
        · exact Or.inl hb2
        · exact Or.inr ⟨0, by simp, by simpa using hy⟩
      · refine Or.inr ⟨i + 1, by simpa using hi, ?_⟩
        rw [show k + (i + 1) = k + 1 + i by omega]
        exact hy
    · rintro (hb | ⟨i, hi, hy⟩)
      · exact Or.inl (by simp [hb])
      · cases i with
        | zero => exact Or.inl (by simp; right; simpa using hy)
        | succ i =>
          refine Or.inr ⟨i, by simp at hi; omega, ?_⟩
          rw [show k + 1 + i = k + (i + 1) by omega]
          exact hy

/-- The query loop consumes exactly one call per family member. -/
theorem srchLoop_k (env : Nat → String) (inWork : String) (l : List String) :
    ∀ (k : Nat) (b : Bool), (srchLoop env inWork l k b).2.1 = k + l.length := by
  induction l with
  | nil => intro k b; simp [srchLoop]
  | cons item rest ih =>
    intro k b
    show (srchLoop env inWork rest (k + 1) _).2.1 = _
    rw [ih (k + 1) _]
    simp [Nat.add_comm, Nat.add_assoc]
    omega

/-- The query loop asks exactly the yes/no question of every family member,
in order. -/
theorem srchLoop_ops (env : Nat → String) (inWork : String) (l : List String) :
    ∀ (k : Nat) (b : Bool), (srchLoop env inWork l k b).2.2 =
      l.map (fun item => Op.sendPrompt (srchQuery inWork item)) := by
  induction l with
  | nil => intro k b; simp [srchLoop]
  | cons item rest ih =>
    intro k b
    show Op.sendPrompt (srchQuery inWork item) :: (srchLoop env inWork rest (k + 1) _).2.2 = _
    rw [ih (k + 1) _]
    rfl

/-- Characterisation of one family check: the output set's membership, the
calls consumed, the questions asked, and frame preservation when nothing
matched. -/
theorem srchExerciseEntries_spec (env : Nat → String) (k : Nat) (inWork : String)
    (inList outList : List String) :
    (∀ x, x ∈ (srchExerciseEntries env k inWork inList outList).1 ↔
        x ∈ outList ∨ (familyFlagged env k inList ∧ x ∈ inList)) ∧
    (srchExerciseEntries env k inWork inList outList).2.1 = k + inList.length ∧
    ((srchExerciseEntries env k inWork inList outList).2.2 =
      inList.map (fun item => Op.sendPrompt (srchQuery inWork item))) ∧
    (¬ familyFlagged env k inList →
      (srchExerciseEntries env k inWork inList outList).1 = outList) := by
  have hfound := srchLoop_found env inWork inList k false
  refine ⟨?_, ?_, ?_, ?_⟩
  · intro x
    unfold srchExerciseEntries
    dsimp only
    by_cases h : (srchLoop env inWork inList k false).1 = true
    · rw [if_pos h]
      have hflag : familyFlagged env k inList := by
        rcases hfound.mp h with h2 | h2
        · exact absurd h2 (by simp)
        · exact h2
      rw [mem_foldl_setAdd]
      tauto
    · rw [if_neg h]
      have hflag : ¬ familyFlagged env k inList := by
        intro h2
        exact h (hfound.mpr (Or.inr h2))
      tauto
  · unfold srchExerciseEntries
    dsimp only
    exact srchLoop_k env inWork inList k false
  · unfold srchExerciseEntries
    dsimp only
    exact srchLoop_ops env inWork inList k false
  · intro hflag
    unfold srchExerciseEntries
    dsimp only
    rw [if_neg (fun h => hflag (by
      rcases hfound.mp h with h2 | h2
      · exact absurd h2 (by simp)
      · exact h2))]

/-- C5: a family check adds exactly the whole family when any member's
query response contains an affirmative substring ("Yes"/"yes"/
"affirmative"/"Affirmative"), every member is queried (no short-circuit
within a family), and across a run the redundant set is the union over the
three independently checked families. -/
theorem C5_redundancy_flagging (env : Nat → String) (k : Nat) (inWork : String)
    (inList outList : List String) (st : TState) :
    (∀ x, x ∈ (srchExerciseEntries env k inWork inList outList).1 ↔
        x ∈ outList ∨ (familyFlagged env k inList ∧ x ∈ inList)) ∧
    ((srchExerciseEntries env k inWork inList outList).2.2 =
      inList.map (fun item => Op.sendPrompt (srchQuery inWork item))) ∧
    (∀ x, x ∈ (analyzeOverall env st).outSet ↔
        ((familyFlagged env (st.k + 3) legRaiseFamily ∧ x ∈ legRaiseFamily) ∨
         (familyFlagged env (st.k + 5) pushUpFamily ∧ x ∈ pushUpFamily) ∨
         (familyFlagged env (st.k + 7) pullUpFamily ∧ x ∈ pullUpFamily))) := by
  refine ⟨(srchExerciseEntries_spec env k inWork inList outList).1,
    (srchExerciseEntries_spec env k inWork inList outList).2.2.1, ?_⟩
  intro x
  have houtSet : (analyzeOverall env st).outSet =
      (srchExerciseEntries env (st.k + 7) (env (st.k + 2)) pullUpFamily
        (srchExerciseEntries env (st.k + 5) (env (st.k + 2)) pushUpFamily
          (srchExerciseEntries env (st.k + 3) (env (st.k + 2)) legRaiseFamily []).1).1).1 := by
    unfold analyzeOverall
    dsimp only
    split <;> rfl
  rw [houtSet]
  rw [(srchExerciseEntries_spec env (st.k + 7) (env (st.k + 2)) pullUpFamily _).1 x]
  rw [(srchExerciseEntries_spec env (st.k + 5) (env (st.k + 2)) pushUpFamily _).1 x]
  rw [(srchExerciseEntries_spec env (st.k + 3) (env (st.k + 2)) legRaiseFamily []).1 x]
  simp only [List.not_mem_nil, false_or]
  tauto

/-- C10: a family check never removes anything from the output set, and
when no member of the family matches, the output set is returned exactly
unchanged, preserving results accumulated from earlier families. -/
theorem C10_srch_monotone (env : Nat → String) (k : Nat) (inWork : String)
    (inList outList : List String) :
    (∀ x ∈ outList, x ∈ (srchExerciseEntries env k inWork inList outList).1) ∧
    (¬ familyFlagged env k inList →
      (srchExerciseEntries env k inWork inList outList).1 = outList) := by
  refine ⟨?_, (srchExerciseEntries_spec env k inWork inList outList).2.2.2⟩
  intro x hx
  exact ((srchExerciseEntries_spec env k inWork inList outList).1 x).mpr (Or.inl hx)

/-- C10 witness: with all queries answering "No", a pre-existing element
stays in the output set and the output set is exactly unchanged. -/
theorem C10_witness :
    ("Old Exercise" ∈ (srchExerciseEntries envAllNo 0 "plan" legRaiseFamily ["Old Exercise"]).1) ∧
      (srchExerciseEntries envAllNo 0 "plan" legRaiseFamily ["Old Exercise"]).1 = ["Old Exercise"] := by
  have h := C10_srch_monotone envAllNo 0 "plan" legRaiseFamily ["Old Exercise"]
  refine ⟨h.1 "Old Exercise" (by simp), h.2 ?_⟩
  rintro ⟨i, hi, hy⟩
  rw [show envAllNo (0 + i) = "No" from rfl] at hy
  have hno : yesMatch "No" = false := by decide
  rw [hno] at hy
  simp at hy

/-- C6: when the redundant set is empty the persisted final workout is the
draft plan text itself and no rewrite call is made (exactly the 2 prior
text-generation calls occur); when it is non-empty, one further
text-generation call is made, as the last call, whose prompt contains every
redundant exercise name and the draft plan, and its response (the next
environment text, not the draft) is persisted. -/
theorem C6_final_workout (env : Nat → String) (st : TState) :
    ((analyzeOverall env st).outSet = [] →
      (analyzeOverall env st).finalWorkoutFile = env (st.k + 2) ∧
      ((analyzeOverall env st).trace.filter isGptOssCall).length = 2 ∧
      (analyzeOverall env st).k = st.k + 10) ∧
    ((analyzeOverall env st).outSet ≠ [] →
      (analyzeOverall env st).finalWorkoutFile = env (st.k + 10) ∧
      ((analyzeOverall env st).trace.filter isGptOssCall).length = 3 ∧
      (analyzeOverall env st).k = st.k + 11 ∧
      ∃ p3, (analyzeOverall env st).trace.getLast? = some (Op.sendPromptGptOss p3) ∧
        (∀ x ∈ (analyzeOverall env st).outSet, x.data <:+: p3.data) ∧
        (env (st.k + 2)).data <:+: p3.data) := by
  unfold analyzeOverall
  dsimp only
  split
  · rename_i hcond
    constructor
    · intro h
      dsimp only at h
      rw [h] at hcond
      simp at hcond
    · intro _
      refine ⟨rfl, rfl, rfl, ?_⟩
      refine ⟨_, rfl, ?_, ?_⟩
      · intro x hx
        rw [String.data_append, String.data_append]
        exact partOf_append_right _ (partOf_append_right _ (exerciseListing_mem _ _ _ x hx))
      · rw [String.data_append]
        exact partOf_append_left _ ⟨[], [], by simp⟩
  · rename_i hcond
    rw [not_lt, Nat.le_zero] at hcond
    constructor
    · intro _
      exact ⟨rfl, rfl, rfl⟩
    · intro h
      exact absurd (List.eq_nil_of_length_eq_zero hcond) h

/-- C6 witness: with all queries answering "No" the draft plan is persisted
verbatim with no rewrite call; with all queries answering "Yes" the rewrite
call runs last and its response is persisted. -/
theorem C6_witness :
    ((analyzeOverall envAllNo initState).finalWorkoutFile = envAllNo (initState.k + 2) ∧
      ((analyzeOverall envAllNo initState).trace.filter isGptOssCall).length = 2 ∧
      (analyzeOverall envAllNo initState).k = initState.k + 10) ∧
    ((analyzeOverall envAllYes initState).finalWorkoutFile = envAllYes (initState.k + 10) ∧
      ((analyzeOverall envAllYes initState).trace.filter isGptOssCall).length = 3 ∧
      (analyzeOverall envAllYes initState).k = initState.k + 11 ∧
      ∃ p3, (analyzeOverall envAllYes initState).trace.getLast? = some (Op.sendPromptGptOss p3) ∧
        (∀ x ∈ (analyzeOverall envAllYes initState).outSet, x.data <:+: p3.data) ∧
        (envAllYes (initState.k + 2)).data <:+: p3.data) :=
  ⟨(C6_final_workout envAllNo initState).1 rfl,
    (C6_final_workout envAllYes initState).2 (by decide)⟩

/-- Closed form of `runViews`: the per-view pairs, 4 calls per view, and
the issued call list. -/
theorem runViews_eq (env : Nat → String) (vs : List ViewSpec) :
    ∀ k, runViews env k vs = (viewTexts env k vs, k + 4 * vs.length, viewOps env k vs) := by
  induction vs with
  | nil => intro k; simp [runViews, viewTexts, viewOps]
  | cons v rest ih =>
    intro k
    rw [runViews]
    simp only [analyze_image_rating]
    rw [ih (k + 4)]
    simp only [viewTexts, viewOps, List.length_cons]
    rw [show (k + 4) + 4 * rest.length = k + 4 * (rest.length + 1) by ring]

/-- C7 counterexample: the inner-chest Category Evaluator makes no
additional category-level fusion call — it consumes exactly the 4 calls of
its single view acquisition and appends that per-view fused text directly,
never a fusion response. -/
theorem C7_counterexample : ¬ CategoryFusionClaimAt envAllNo initState innerChestDef := by
  intro h
  have hk := h.1
  rw [show (runCategory envAllNo initState innerChestDef).k = 4 from rfl,
    show initState.k + 4 * innerChestDef.views.length + 1 = 5 from rfl] at hk
  simp at hk

/-- C7 amended: every Category Definition with a fusion stage (all 20
multi-view categories) builds the category fusion prompt embedding the
per-view fused texts under their photo labels, submits it as one additional
text-only call, and appends that call's response under the category
identifier; the two single-view categories (inner chest and upper back,
exactly the ones without a fusion stage) instead append the per-view fused
text directly with no additional call. -/
theorem C7_category_fusion :
    (∀ (env : Nat → String) (st : TState) (c : CategoryDef) (base : String),
      c.fusionBase = some base →
        runCategory env st c =
          { overPrompt := st.overPrompt ++ "\n\n" ++ c.transcriptLabel ++ " : \n\n" ++
              env (st.k + 4 * c.views.length),
            entries := st.entries ++
              [(c.transcriptLabel, env (st.k + 4 * c.views.length))],
            k := st.k + 4 * c.views.length + 1,
            trace := st.trace ++ viewOps env st.k c.views ++
              [Op.sendPrompt (fusionPrompt base (viewTexts env st.k c.views))] }) ∧
    (∀ (env : Nat → String) (st : TState) (c : CategoryDef),
      c ∈ categoryDefs → c.fusionBase = none →
        c.views.length = 1 ∧
        runCategory env st c =
          { overPrompt := st.overPrompt ++ "\n\n" ++ c.transcriptLabel ++ " : \n\n" ++
              env (st.k + 3),
            entries := st.entries ++ [(c.transcriptLabel, env (st.k + 3))],
            k := st.k + 4,
            trace := st.trace ++ viewOps env st.k c.views }) ∧
    ((categoryDefs.filter (fun c => c.fusionBase.isNone)).map
      (fun c => c.transcriptLabel) = ["inner chest", "upper back"]) := by
  refine ⟨?_, ?_, rfl⟩
  · intro env st c base hb
    unfold runCategory
    rw [runViews_eq env c.views st.k, hb]
  · intro env st c hmem hnone
    simp only [categoryDefs, List.mem_cons, List.not_mem_nil, or_false] at hmem
    rcases hmem with rfl | rfl | rfl | rfl | rfl | rfl | rfl | rfl | rfl | rfl | rfl |
      rfl | rfl | rfl | rfl | rfl | rfl | rfl | rfl | rfl | rfl | rfl <;>
      first
        | exact ⟨rfl, rfl⟩
        | (exfalso
           revert hnone
           simp [cardiovascularConditioningDef, neckAndTrapsDef, upperChestDef,
             lowerChestDef, upperAbdominalsDef, lowerAbdominalsDef, quadricepsDef,
             calvesDef, hamstringsDef, latissimusDef, obliquesDef, kineticChainDef,
             tricepsDef, bicepsDef, frontShouldersDef, backShouldersDef, postureDef,
             outerChestDef, upperLowerSymmetryDef, leftRightSymmetryDef])

/-- C7 witness: concrete instances — the cardiovascular-conditioning
category (fusion stage) and the inner-chest category (direct copy). -/
theorem C7_witness :
    runCategory envAllNo initState cardiovascularConditioningDef =
      { overPrompt := initState.overPrompt ++ "\n\n" ++
          cardiovascularConditioningDef.transcriptLabel ++ " : \n\n" ++
          envAllNo (initState.k + 4 * cardiovascularConditioningDef.views.length),
        entries := initState.entries ++
          [(cardiovascularConditioningDef.transcriptLabel,
            envAllNo (initState.k + 4 * cardiovascularConditioningDef.views.length))],
        k := initState.k + 4 * cardiovascularConditioningDef.views.length + 1,
        trace := initState.trace ++
          viewOps envAllNo initState.k cardiovascularConditioningDef.views ++
          [Op.sendPrompt (fusionPrompt (cardiovascularConditioningDef.fusionBase.getD "")
            (viewTexts envAllNo initState.k cardiovascularConditioningDef.views))] } ∧
    innerChestDef.views.length = 1 ∧
    runCategory envAllNo initState innerChestDef =
      { overPrompt := initState.overPrompt ++ "\n\n" ++ innerChestDef.transcriptLabel ++
          " : \n\n" ++ envAllNo (initState.k + 3),
        entries := initState.entries ++
          [(innerChestDef.transcriptLabel, envAllNo (initState.k + 3))],
        k := initState.k + 4,
        trace := initState.trace ++ viewOps envAllNo initState.k innerChestDef.views } := by
  refine ⟨?_, ?_, ?_⟩
  · exact C7_category_fusion.1 envAllNo initState cardiovascularConditioningDef
      (cardiovascularConditioningDef.fusionBase.getD "") rfl
  · exact (C7_category_fusion.2.1 envAllNo initState innerChestDef
      (by simp [categoryDefs]) rfl).1
  · exact (C7_category_fusion.2.1 envAllNo initState innerChestDef
      (by simp [categoryDefs]) rfl).2

/-- Each category evaluation appends exactly one transcript entry, labelled
with its category identifier. -/
theorem runCategory_entries_label (env : Nat → String) (st : TState) (c : CategoryDef) :
    (runCategory env st c).entries.map Prod.fst =
      st.entries.map Prod.fst ++ [c.transcriptLabel] := by
  unfold runCategory
  dsimp only
  split <;> simp

/-- Appending one entry extends the rendering by one section. -/
theorem transcriptRender_append (es : List (String × String)) (e : String × String) :
    transcriptRender (es ++ [e]) =
      transcriptRender es ++ "\n\n" ++ e.1 ++ " : \n\n" ++ e.2 := by
  unfold transcriptRender
  rw [List.foldl_append]
  rfl

/-- Each category evaluation keeps `overPrompt` equal to the rendering of
the transcript entries. -/
theorem runCategory_invariant (env : Nat → String) (st : TState) (c : CategoryDef)
    (h : st.overPrompt = transcriptRender st.entries) :
    (runCategory env st c).overPrompt = transcriptRender (runCategory env st c).entries := by
  unfold runCategory
  dsimp only
  split <;> (rw [transcriptRender_append, ← h])

/-- The transcript labels after folding category evaluations are the
categories' identifiers appended in evaluation order. -/
theorem foldl_runCategory_entries_fst (env : Nat → String) (cs : List CategoryDef) :
    ∀ st : TState,
      ((cs.foldl (runCategory env) st).entries.map Prod.fst) =
        st.entries.map Prod.fst ++ cs.map (fun c => c.transcriptLabel) := by
  induction cs with
  | nil => intro st; simp
  | cons c rest ih =>
    intro st
    rw [List.foldl_cons, ih (runCategory env st c), runCategory_entries_label]
    simp

/-- Folding category evaluations preserves the rendering invariant. -/
theorem foldl_runCategory_invariant (env : Nat → String) (cs : List CategoryDef) :
    ∀ st : TState, st.overPrompt = transcriptRender st.entries →
      (cs.foldl (runCategory env) st).overPrompt =
        transcriptRender (cs.foldl (runCategory env) st).entries := by
  induction cs with
  | nil => intro st h; exact h
  | cons c rest ih => intro st h; exact ih _ (runCategory_invariant env st c h)

/-- The explicit category sequence of `overallRun` is the fold of
`runCategory` over the configured Category Definitions. -/
theorem overallRun_transcript_eq (env : Nat → String) :
    (overallRun env).transcript = categoriesRun env initState := rfl

/-- C4 (amended count): every complete run appends exactly one transcript
entry per configured Category Definition — 22 of them, pairwise distinct,
in the configured evaluation order — and the Overall Aggregator runs only
afterwards: its first call embeds the completed transcript text, which is
exactly the rendering of all 22 entries. -/
theorem C4_transcript_order (env : Nat → String) :
    (overallRun env).transcript.entries.map Prod.fst = categoryLabels ∧
    categoryLabels.length = 22 ∧
    categoryLabels.Nodup ∧
    (overallRun env).transcript.overPrompt =
      transcriptRender (overallRun env).transcript.entries ∧
    (overallRun env).overall = analyzeOverall env (overallRun env).transcript ∧
    ∃ rest, (overallRun env).overall.trace =
      Op.sendPrompt ("summarize the four categories listed below with the lowest numerical ratings.  Where there is a tie and multiple categories have a low numerical rating, exercise judgement based on the surrounding descriptions to determine which four areas need the most work.  For each of the four lowest-rated areas, include information relevant to creating a customized workout to address the lagging area.\n\n" ++
        (overallRun env).transcript.overPrompt) :: rest := by
  refine ⟨?_, by decide, by decide, ?_, rfl, ?_⟩
  · rw [overallRun_transcript_eq]
    have h := foldl_runCategory_entries_fst env categoryDefs initState
    simpa [categoriesRun, initState] using h
  · rw [overallRun_transcript_eq]
    exact foldl_runCategory_invariant env categoryDefs initState rfl
  · show ∃ rest, (analyzeOverall env (overallRun env).transcript).trace = _
    unfold analyzeOverall
    dsimp only
    split <;> exact ⟨_, rfl⟩

/-- C4 counterexample: the run has 22 category evaluations, not 21 — the
transcript of a complete concrete run has 22 entries. -/
theorem C4_counterexample :
    ¬ ((overallRun envAllNo).transcript.entries.length = 21) := by
  intro h
  have h2 : (overallRun envAllNo).transcript.entries.map Prod.fst =
      categoryDefs.map (fun c => c.transcriptLabel) := by
    rw [overallRun_transcript_eq]
    have h3 := foldl_runCategory_entries_fst envAllNo categoryDefs initState
    simpa [categoriesRun, initState] using h3
  have h4 := congrArg List.length h2
  rw [List.length_map, List.length_map] at h4
  have h5 : categoryDefs.length = 22 := rfl
  omega
